import Mathlib

/-!
# Stadium-Attendance-Dashboard: verification of the spec against the code

Shallow embedding of the two scripts of the repository
(`scripts/build_dashboard.py`, `scripts/fetch_data.py`) and proofs about
the claims of the specification.

The attendance table is a list of rows; the three SQL aggregation queries
(`rolling`, `weekday`, `annual`) are embedded as pure functions over that
list.  The DuckDB load path (`init_db` / `ensure_table` / the existence
checks in `build_dashboard`) is embedded as explicit state passing over an
optional database value.  `fetch_data.py`'s date arithmetic is embedded
over day ordinals exactly as Python's `datetime` defines them
(ordinal 1 = 0001-01-01 of the proleptic Gregorian calendar,
`weekday() = (ordinal + 6) % 7` with Monday = 0), and its HTTP interaction
is embedded as functions from URLs to status codes and bodies.
-/

/-- One row of the `attendance` table, with the columns the three queries
reference: `team_name` (the filter column), `year` (season), `week`,
`game_date` (the ordering key of the rolling query) and the two metric
columns `weekly_attendance` and `attendance`. -/
structure Row where
  team_name : String
  year : Nat
  week : Nat
  game_date : Nat
  weekly_attendance : ℚ
  attendance : ℚ
deriving DecidableEq, Repr

/-! ## The rolling-average query

`rolling` in `build_dashboard.py`:
ranks the team's rows by `game_date` (`ROW_NUMBER() OVER (ORDER BY
game_date)`) and computes `AVG(attendance) OVER (ORDER BY rn ROWS BETWEEN
2 PRECEDING AND CURRENT ROW)`, returning `(game_date, roll_att)` pairs
ordered by `game_date`. -/

/-- Ordering relation of `ORDER BY game_date`. -/
def rowLe (a b : Row) : Prop := a.game_date ≤ b.game_date

instance : DecidableRel rowLe := fun a b => Nat.decLe a.game_date b.game_date

instance : IsTotal Row rowLe := ⟨fun a b => Nat.le_total a.game_date b.game_date⟩

instance : IsTrans Row rowLe := ⟨fun _ _ _ h h' => Nat.le_trans h h'⟩

/-- Tail of the 3-wide trailing window scan: `x` and `y` are the two rows
immediately preceding the head of the remaining list. -/
def roll3go (x y : ℚ) : List ℚ → List ℚ
  | [] => []
  | z :: rest => (x + y + z) / 3 :: roll3go y z rest

/-- `AVG(v) OVER (ORDER BY rn ROWS BETWEEN 2 PRECEDING AND CURRENT ROW)`:
each output position averages the value at that position and the (up to
two) immediately preceding values. -/
def roll3 : List ℚ → List ℚ
  | [] => []
  | [a] => [a]
  | a :: b :: rest => a :: (a + b) / 2 :: roll3go a b rest

/-- The team's rows, ranked by `game_date` (the `base` CTE of `rolling`). -/
def rollingBase (team : String) (tbl : List Row) : List Row :=
  (tbl.filter (fun r => r.team_name = team)).insertionSort rowLe

/-- The `rolling` query: `(game_date, roll_att)` pairs ordered by
`game_date`. -/
def rolling (team : String) (tbl : List Row) : List (Nat × ℚ) :=
  ((rollingBase team tbl).map (fun r => r.game_date)).zip
    (roll3 ((rollingBase team tbl).map (fun r => r.attendance)))

/-! ## The weekday query

`weekday` in `build_dashboard.py`: groups the team's rows by
`(STRFTIME(week, '%w'), year)`, averages `attendance` per group and orders
by `year` then by the weekday string (`ORDER BY 2, 1`).  The `STRFTIME`
application to the `week` column is embedded as an explicit function
parameter `fmt`. -/

/-- Ordering of `ORDER BY 2, 1` on `(weekday-string, year)` keys:
by year first, then by the weekday string. -/
def wkKeyLe (a b : String × Nat) : Prop :=
  a.2 < b.2 ∨ (a.2 = b.2 ∧ a.1 ≤ b.1)

instance : DecidableRel wkKeyLe := fun a b => by
  unfold wkKeyLe; infer_instance

instance : IsTotal (String × Nat) wkKeyLe := by
  constructor
  intro a b
  rcases Nat.lt_trichotomy a.2 b.2 with h | h | h
  · exact Or.inl (Or.inl h)
  · rcases le_total a.1 b.1 with h' | h'
    · exact Or.inl (Or.inr ⟨h, h'⟩)
    · exact Or.inr (Or.inr ⟨h.symm, h'⟩)
  · exact Or.inr (Or.inl h)

instance : IsTrans (String × Nat) wkKeyLe := by
  constructor
  intro a b c hab hbc
  rcases hab with h | ⟨he, hs⟩
  · rcases hbc with h' | ⟨he', _⟩
    · exact Or.inl (h.trans h')
    · exact Or.inl (he' ▸ h)
  · rcases hbc with h' | ⟨he', hs'⟩
    · exact Or.inl (he ▸ h')
    · exact Or.inr ⟨he.trans he', hs.trans hs'⟩

/-- The `weekday` query: one `(weekday-string, year, avg attendance)` row
per populated `(STRFTIME(week), year)` group, ordered by year then weekday
string. -/
def weekday (fmt : Nat → String) (team : String) (tbl : List Row) :
    List (String × Nat × ℚ) :=
  let f := tbl.filter (fun r => r.team_name = team)
  let keys := ((f.map (fun r => (fmt r.week, r.year))).dedup).insertionSort wkKeyLe
  keys.map (fun k =>
    let g := f.filter (fun r => fmt r.week = k.1 ∧ r.year = k.2)
    (k.1, k.2, (g.map (fun r => r.attendance)).sum / g.length))

/-! ## The annual query

`annual` in `build_dashboard.py`: groups the team's rows by `year` and
computes `SUM(TRY_CAST(weekly_attendance AS DOUBLE)) / 1000.0`, ordered by
year ascending. -/

/-- The per-season value of the `annual` query:
`SUM(weekly_attendance) / 1000.0` over the team's rows of that year. -/
def annualValue (team : String) (tbl : List Row) (y : Nat) : ℚ :=
  (((tbl.filter (fun r => r.team_name = team)).filter
      (fun r => r.year = y)).map (fun r => r.weekly_attendance)).sum / 1000

/-- The `annual` query: one `(year, total_att_k)` row per populated season,
ordered by year ascending. -/
def annual (team : String) (tbl : List Row) : List (Nat × ℚ) :=
  let f := tbl.filter (fun r => r.team_name = team)
  let years := ((f.map (fun r => r.year)).dedup).insertionSort (· ≤ ·)
  years.map (fun y => (y, annualValue team tbl y))

/-! ## The Local Store (DuckDB load path)

`build_dashboard` first raises `FileNotFoundError` ("attendance.csv
missing") when the source CSV is absent, then runs `init_db()` when the
database file is absent (`CREATE OR REPLACE TABLE attendance AS SELECT *
FROM read_csv_auto(...)` over a writable connection), and then opens the
store with `duckdb.connect(DB_PATH, read_only=True)` and calls
`ensure_table` on that connection.  `ensure_table` re-checks
`information_schema.tables` and attempts the `CREATE` only when the
`attendance` table is still missing — but DuckDB rejects `CREATE` over a
connection opened with `read_only=True`, so that branch raises a
read-only error instead of loading the CSV.  The CSV file is embedded as
`Option (List Row)` (`none` = file absent), the database file as
`Option DB`, and a connection's mode as a `readOnly` flag. -/

/-- The load-failure outcomes: `dataUnavailable` corresponds to the
`FileNotFoundError` raised when `attendance.csv` is missing;
`readOnlyWrite` to DuckDB's "cannot execute CREATE in read-only mode"
error raised when `ensure_table` attempts the load over the
`read_only=True` connection. -/
inductive PipeErr where
  | dataUnavailable
  | readOnlyWrite
deriving DecidableEq, Repr

/-- The persistent store: the database file holds at most the
`attendance` table. -/
structure DB where
  table : Option (List Row)
deriving DecidableEq, Repr

/-- `read_csv_auto`: reading the CSV yields its rows. -/
def read_csv_auto (csv : List Row) : List Row := csv

/-- `init_db`: create the database file with the `attendance` table loaded
from the CSV. -/
def init_db (csv : List Row) : DB := ⟨some (read_csv_auto csv)⟩

/-- `ensure_table(con)`: reuse the `attendance` table when it is present;
when it is absent, attempt `CREATE OR REPLACE TABLE attendance AS SELECT
* FROM read_csv_auto(...)` over the given connection.  DuckDB rejects
`CREATE` over a connection opened with `read_only=True`, so on a
read-only connection the table-absent branch raises instead of loading.
The boolean records whether the CSV was read. -/
def ensure_table (readOnly : Bool) (csv : List Row) (db : DB) :
    Except PipeErr (DB × Bool) :=
  match db.table with
  | some _ => .ok (db, false)
  | none =>
    if readOnly then .error .readOnlyWrite
    else .ok (⟨some (read_csv_auto csv)⟩, true)

/-- The load path of `build_dashboard` (`ensure_loaded` of the spec):
fail when the CSV is absent; otherwise run `init_db` (a writable
connection) when the database file is absent, then open the store
read-only and run `ensure_table` on that connection — exactly the
sequence of `build_dashboard.py` lines 144-151.  The boolean records
whether the CSV was read during the call. -/
def ensure_loaded (csv : Option (List Row)) (db : Option DB) :
    Except PipeErr (DB × Bool) :=
  match csv with
  | none => .error .dataUnavailable
  | some c =>
    match db with
    | none =>
      match ensure_table true c (init_db c) with
      | .error e => .error e
      | .ok (db1, _) => .ok (db1, true)
    | some dbv => ensure_table true c dbv

/-- One run's aggregation results: the three queries over the loaded
table. -/
def runAggregates (fmt : Nat → String) (team : String) (tbl : List Row) :
    List (Nat × ℚ) × List (String × Nat × ℚ) × List (Nat × ℚ) :=
  (rolling team tbl, weekday fmt team tbl, annual team tbl)

/-- One pipeline run: load (or reuse) the table, then compute the three
aggregates over it. -/
def runPipeline (fmt : Nat → String) (team : String)
    (csv : Option (List Row)) (db : Option DB) :
    Except PipeErr (DB × (List (Nat × ℚ) × List (String × Nat × ℚ) × List (Nat × ℚ))) :=
  match ensure_loaded csv db with
  | .error e => .error e
  | .ok (db1, _) => .ok (db1, runAggregates fmt team (db1.table.getD []))

/-! ## The Chart Builder

`build_dashboard` builds `fig1` with `px.imshow(pivot_df, ...)` followed by
`fig1.update_yaxes(tickmode="array", tickvals=list(range(7)),
ticktext=["Sun", ..., "Sat"])`, and `fig2` with `px.line(df_yr, ...,
markers=True)`. -/

/-- A heatmap figure: the data matrix plus the y-axis tick settings. -/
structure ImFig where
  matrixRows : List (Nat × List ℚ)
  tickmode : String
  tickvals : List Nat
  ticktext : List String
  title : String
deriving Repr

/-- `px.imshow`: a heatmap of the given rows with default (automatic)
axis ticks. -/
def px_imshow (rows : List (Nat × List ℚ)) (title : String) : ImFig :=
  { matrixRows := rows, tickmode := "auto", tickvals := [], ticktext := [],
    title := title }

/-- `update_yaxes(tickmode=..., tickvals=..., ticktext=...)`. -/
def update_yaxes (f : ImFig) (mode : String) (vals : List Nat)
    (text : List String) : ImFig :=
  { f with tickmode := mode, tickvals := vals, ticktext := text }

/-- The `fig1` of `build_dashboard`: the heatmap with its y-axis forced to
the seven fixed day-of-week categories. -/
def fig1Of (rows : List (Nat × List ℚ)) : ImFig :=
  update_yaxes (px_imshow rows "Average Attendance by Week & Season")
    "array" (List.range 7)
    ["Sun", "Mon", "Tue", "Wed", "Thu", "Fri", "Sat"]

/-- A line figure: its data points and layout metadata. -/
structure LineFig where
  points : List (Nat × ℚ)
  markers : Bool
  title : String
deriving Repr

/-- `px.line`: one point per input row. -/
def px_line (df : List (Nat × ℚ)) (markers : Bool) (title : String) :
    LineFig :=
  { points := df, markers := markers, title := title }

/-- The `fig2` of `build_dashboard`. -/
def fig2Of (team : String) (tbl : List Row) : LineFig :=
  px_line (annual team tbl) true "Season-over-Season Total Attendance"

/-! ## The Page Renderer

`HTML_TEMPLATE` in `build_dashboard.py` is a Jinja template with five
placeholders: `team`, `fig1.data`, `fig1.layout`, `fig2.data`,
`fig2.layout`.  It is embedded as an alternating list of literal text
pieces and placeholder pieces; rendering substitutes the placeholder
values and concatenates.  The output is written to the fixed path
`HTML_OUT = html/dashboard.html`. -/

/-- One piece of the HTML template: literal text, the `{{ team }}`
placeholder, or a `{{ figN.data|safe }}` / `{{ figN.layout|safe }}`
placeholder. -/
inductive Piece where
  | lit (s : String)
  | teamVar
  | figData (i : Nat)
  | figLayout (i : Nat)
deriving DecidableEq, Repr

/-- Template text up to the `<title>` element. -/
def tplHead : String := "\n<!DOCTYPE html><html lang=\"en\"><head>\n<meta charset=\"utf-8\">"

/-- The fixed `<title>` element of the template. -/
def tplTitle : String := "<title>NFL Attendance Dashboard</title>"

/-- Template text from the plotly script tag to the `<h1>` element. -/
def tplStyle : String := "\n<script src=\"https://cdn.plot.ly/plotly-latest.min.js\"></script>\n<style>body\x7bfont-family:Arial;margin:0\x7d .plot\x7bwidth:90%;margin:40px auto\x7d</style>\n</head><body>\n"

/-- The opening `<h1>` tag that precedes the team placeholder. -/
def tplH1 : String := "<h1 style=\"text-align:center\">"

/-- Template text between the team placeholder and `fig1.data`. -/
def tplMid1 : String := " – Attendance Dashboard</h1>\n<div class=\"plot\" id=\"fig1\"></div>\n<div class=\"plot\" id=\"fig2\"></div>\n<script>\nPlotly.newPlot(\x27fig1\x27, "

/-- Separator between `fig1.data` and `fig1.layout`. -/
def tplComma1 : String := ", "

/-- Template text between `fig1.layout` and `fig2.data`. -/
def tplMid2 : String := ");\nPlotly.newPlot(\x27fig2\x27, "

/-- Separator between `fig2.data` and `fig2.layout`. -/
def tplComma2 : String := ", "

/-- Closing template text. -/
def tplEnd : String := ");\n</script>\n</body></html>\n"

/-- The `HTML_TEMPLATE` of `build_dashboard.py` as a piece list. -/
def HTML_TEMPLATE : List Piece :=
  [.lit tplHead, .lit tplTitle, .lit tplStyle, .lit tplH1, .teamVar,
   .lit tplMid1, .figData 1, .lit tplComma1, .figLayout 1,
   .lit tplMid2, .figData 2, .lit tplComma2, .figLayout 2, .lit tplEnd]

/-- Value of one template piece under a substitution. -/
def pieceText (team d1 l1 d2 l2 : String) : Piece → String
  | .lit s => s
  | .teamVar => team
  | .figData i => if i = 1 then d1 else d2
  | .figLayout i => if i = 1 then l1 else l2

/-- Render a piece list: concatenate the values of its pieces. -/
def renderPieces (team d1 l1 d2 l2 : String) : List Piece → String
  | [] => ""
  | p :: ps =>
    pieceText team d1 l1 d2 l2 p ++ renderPieces team d1 l1 d2 l2 ps

/-- `Template(HTML_TEMPLATE).render(team=..., fig1=..., fig2=...)`. -/
def renderTemplate (team d1 l1 d2 l2 : String) : String :=
  renderPieces team d1 l1 d2 l2 HTML_TEMPLATE

/-- The chart identifiers whose specifications the template embeds. -/
def htmlChartFigs : List Nat :=
  HTML_TEMPLATE.filterMap (fun p =>
    match p with
    | .figData i => some i
    | _ => none)

/-- The fixed output path `HTML_OUT` of `build_dashboard.py`. -/
def HTML_OUT : String := "html/dashboard.html"

/-- `needle` occurs as a contiguous substring of `hay`. -/
def occursIn (needle hay : String) : Prop :=
  ∃ a b : List Char, hay.data = a ++ (needle.data ++ b)

/-! ## The Data Provider (`fetch_data.py`)

Dates are embedded as Python `datetime` ordinals: ordinal 1 is 0001-01-01
of the proleptic Gregorian calendar and `weekday() = (ordinal + 6) % 7`
with Monday = 0.  The HTTP side is embedded as functions from URLs to
status codes and bodies; the filesystem as an association list of written
files. -/

/-- Python's leap-year rule. -/
def isLeap (y : Nat) : Bool := (y % 4 == 0 && y % 100 != 0) || y % 400 == 0

/-- The month lengths of year `y`. -/
def monthLengths (y : Nat) : List Nat :=
  [31, if isLeap y then 29 else 28, 31, 30, 31, 30, 31, 31, 30, 31, 30, 31]

/-- Python's `date(y, 1, 1).toordinal()`:
`(y-1)*365 + (y-1)//4 - (y-1)//100 + (y-1)//400 + 1`. -/
def ordJan1 (y : Nat) : Nat :=
  (y - 1) * 365 + (y - 1) / 4 + (y - 1) / 400 + 1 - (y - 1) / 100

/-- Python's `weekday()` on an ordinal: Monday = 0 … Sunday = 6. -/
def pyWeekdayOfOrd (o : Nat) : Nat := (o + 6) % 7

/-- Month and day of a (1-based) day of the year. -/
def monthDayGo (m : Nat) (doy : Nat) : List Nat → Nat × Nat
  | [] => (m, doy)
  | len :: rest => if doy ≤ len then (m, doy) else monthDayGo (m + 1) (doy - len) rest

/-- Month and day of the `doy`-th day of year `y`. -/
def monthDay (y : Nat) (doy : Nat) : Nat × Nat := monthDayGo 1 doy (monthLengths y)

/-- Zero-padded two-digit decimal string. -/
def pad2 (n : Nat) : String := if n < 10 then "0" ++ toString n else toString n

/-- `strftime("%Y-%m-%d")` for an ordinal lying in 2023. -/
def fmtOrd2023 (o : Nat) : String :=
  let md := monthDay 2023 (o + 1 - ordJan1 2023)
  "2023-" ++ pad2 md.1 ++ "-" ++ pad2 md.2

/-- The first Tuesday of 2023: `d += timedelta(days=(1 - d.weekday()) % 7)`
applied to 2023-01-01 (Python's `%` on a possibly negative value equals
`(1 + 7 - weekday) % 7` for `weekday ∈ 0..6`). -/
def firstTuesday2023 : Nat :=
  ordJan1 2023 + (1 + 7 - pyWeekdayOfOrd (ordJan1 2023)) % 7

/-- The `while d.year == 2023` collection loop of `tuesdays_2023`,
stepping 7 days; `o < ordJan1 2024` is the `year == 2023` guard for an
ordinal at or beyond 2023-01-01.  The fuel bound 60 exceeds the 53 weeks
a year can contain, so it never cuts the loop short. -/
def tuesdaysLoop : Nat → Nat → List String
  | 0, _ => []
  | fuel + 1, o =>
    if o < ordJan1 2024 then fmtOrd2023 o :: tuesdaysLoop fuel (o + 7) else []

/-- `tuesdays_2023()`: all Tuesdays of 2023 as `YYYY-MM-DD` strings,
newest first (`dates[::-1]`). -/
def tuesdays_2023 : List String := (tuesdaysLoop 60 firstTuesday2023).reverse

/-- Written from the spec sentence, for comparison: the dates of all
Tuesdays of 2023 (Python weekday 1), in ascending order, formatted
`YYYY-MM-DD`. -/
def tuesdays2023Asc : List String :=
  (((List.range (monthLengths 2023).sum).map (fun i => ordJan1 2023 + i)).filter
    (fun o => pyWeekdayOfOrd o == 1)).map fmtOrd2023

/-- The spec-side list of all 2023 Tuesdays, newest first. -/
def tuesdays2023Desc : List String := tuesdays2023Asc.reverse

/-- The toolkit the scripts talk HTTP through: status of a `HEAD`
request, status of a `GET` request, and the body a `GET` returns. -/
structure HttpEnv where
  headStatus : String → Nat
  getStatus : String → Nat
  getBody : String → String

/-- `RAW_BASE` of `fetch_data.py`. -/
def RAW_BASE : String :=
  "https://raw.githubusercontent.com/rfordatascience/tidytuesday/main/data/2023/"

/-- `MANDATORY` of `fetch_data.py`. -/
def MANDATORY : String := "attendance.csv"

/-- The optional schedule file of `fetch_data.py`. -/
def OPTIONAL : String := "schedule_2019_2023.csv"

/-- `RAW_DIR` of `fetch_data.py`. -/
def RAW_DIR : String := "data/raw/"

/-- The raw URL of a file inside a dated TidyTuesday folder. -/
def urlFor (date file : String) : String := RAW_BASE ++ date ++ "/" ++ file

/-- The folder-selection loop of `main`: the first date (in list order)
whose `attendance.csv` answers a `HEAD` request with status 200. -/
def chooseDate (env : HttpEnv) (dates : List String) : Option String :=
  dates.find? (fun d => env.headStatus (urlFor d MANDATORY) == 200)

/-- The observable outcome of `download`: returned `True`, returned
`False` (status 404), or raised (`raise_for_status`). -/
inductive Outcome where
  | success
  | notFound
  | raised
deriving DecidableEq, Repr

/-- `requests`' `raise_for_status` raises exactly for status codes in
`[400, 600)`. -/
def is_error_status (s : Nat) : Bool := 400 ≤ s && s < 600

/-- `download(url, dest)`: on 404 return `False`; on another error status
raise before writing; otherwise write the body to `dest` and return
`True`.  The file state is passed explicitly and returned unchanged on
both failure paths. -/
def download (env : HttpEnv) (url : String) (files : List (String × String))
    (dest : String) : Outcome × List (String × String) :=
  let s := env.getStatus url
  if s == 404 then (.notFound, files)
  else if is_error_status s then (.raised, files)
  else (.success, (dest, env.getBody url) :: files)

/-- `main()` of `fetch_data.py`, run under the `__main__` wrapper that
turns any uncaught exception into exit code 1: pick the dataset folder,
download the mandatory file (404 ⇒ `sys.exit`, raise ⇒ exit 1), then
download the optional file ignoring its boolean result (but a raise still
aborts the run).  Returns the exit code and the files written. -/
def mainFetch (env : HttpEnv) (override : Option String) :
    Nat × List (String × String) :=
  let dates := match override with
    | some d => [d]
    | none => tuesdays_2023
  match chooseDate env dates with
  | none => (1, [])
  | some chosen =>
    match download env (urlFor chosen MANDATORY) [] (RAW_DIR ++ MANDATORY) with
    | (.raised, files) => (1, files)
    | (.notFound, files) => (1, files)
    | (.success, files) =>
      match download env (urlFor chosen OPTIONAL) files (RAW_DIR ++ OPTIONAL) with
      | (.raised, files2) => (1, files2)
      | (_, files2) => (0, files2)

/-! ## Spec-side definitions and concrete inputs for the witnesses -/

/-- The 3-wide trailing window of the spec at (0-based) row `k`: rows
`max 0 (k-2) … k` of the ordered value sequence. -/
def rollingWindow (vals : List ℚ) (k : Nat) : List ℚ :=
  (vals.take (k + 1)).drop (k - 2)

/-- The attendance values of the team's rows in `game_date` order. -/
def rollingVals (team : String) (tbl : List Row) : List ℚ :=
  (rollingBase team tbl).map (fun r => r.attendance)

/-- Concrete row used by the witnesses: team "T", everything keyed by the
supplied `game_date`. -/
def wrow (gd : Nat) (att : ℚ) : Row :=
  { team_name := "T", year := 2000, week := gd, game_date := gd,
    weekly_attendance := att, attendance := att }

/-- Concrete three-row table used by the witnesses. -/
def wtbl : List Row := [wrow 1 10, wrow 2 20, wrow 3 60]

/-- The row of the C4 counterexample: one record with
`weekly_attendance = 2000`. -/
def c4row : Row :=
  { team_name := "T", year := 2000, week := 1, game_date := 1,
    weekly_attendance := 2000, attendance := 2000 }

/-- Strict lexicographic order on character lists, by code point. -/
def lexLt : List Char → List Char → Bool
  | [], [] => false
  | [], _ :: _ => true
  | _ :: _, [] => false
  | a :: as, b :: bs =>
    if a.val.toNat < b.val.toNat then true
    else if b.val.toNat < a.val.toNat then false
    else lexLt as bs

/-- Strict lexicographic (hence, for fixed-width `YYYY-MM-DD` strings of
one year, chronological) order on date strings. -/
def dateLt (a b : String) : Bool := lexLt a.data b.data

/-- An HTTP toolkit answering 200 everywhere, for the C9 witness. -/
def envAll200 : HttpEnv :=
  { headStatus := fun _ => 200, getStatus := fun _ => 200,
    getBody := fun _ => "" }

/-- An HTTP toolkit where the `GET` of the optional schedule file of the
2023-12-26 folder answers 500 and everything else answers 200. -/
def env0 : HttpEnv :=
  { headStatus := fun _ => 200,
    getStatus := fun url => if url = urlFor "2023-12-26" OPTIONAL then 500 else 200,
    getBody := fun _ => "team,weekly_attendance" }

/-- An HTTP toolkit where the optional schedule file of the 2023-12-26
folder answers 404 and everything else answers 200. -/
def env1 : HttpEnv :=
  { headStatus := fun _ => 200,
    getStatus := fun url => if url = urlFor "2023-12-26" OPTIONAL then 404 else 200,
    getBody := fun _ => "team,weekly_attendance" }

/-- An HTTP toolkit answering 404 everywhere, for the C10 witness. -/
def env404 : HttpEnv :=
  { headStatus := fun _ => 404, getStatus := fun _ => 404,
    getBody := fun _ => "" }

/-! ## Helper lemmas -/

theorem roll3go_length : ∀ (l : List ℚ) (x y : ℚ),
    (roll3go x y l).length = l.length
  | [], _, _ => rfl
  | z :: rest, x, y => by simp [roll3go, roll3go_length rest]

theorem roll3_length : ∀ l : List ℚ, (roll3 l).length = l.length
  | [] => rfl
  | [_] => rfl
  | _ :: _ :: rest => by simp [roll3, roll3go_length]

theorem roll3go_get : ∀ (l : List ℚ) (x y : ℚ) (k : Nat)
    (h : k < (roll3go x y l).length),
    (roll3go x y l).get ⟨k, h⟩ = ((([x, y] ++ l).drop k).take 3).sum / 3
  | [], x, y, k, h => absurd h (by simp [roll3go])
  | z :: rest, x, y, 0, _ => by
    simp [roll3go, add_assoc]
  | z :: rest, x, y, k + 1, h => by
    have h' : k < (roll3go y z rest).length := by
      simpa [roll3go] using h
    exact roll3go_get rest y z k h'

theorem roll3_get : ∀ (l : List ℚ) (k : Nat) (h : k < (roll3 l).length),
    (roll3 l).get ⟨k, h⟩ =
      ((l.take (k + 1)).drop (k - 2)).sum / ((l.take (k + 1)).drop (k - 2)).length
  | [], k, h => absurd h (by simp [roll3])
  | [a], 0, _ => by simp [roll3]
  | [a], k + 1, h => absurd h (by simp [roll3])
  | a :: b :: rest, 0, _ => by simp [roll3]
  | a :: b :: rest, 1, _ => by
    simp [roll3]
  | a :: b :: rest, k + 2, h => by
    have hk : k < rest.length := by
      have h1 := h
      rw [roll3_length] at h1
      simp only [List.length_cons] at h1
      omega
    have h' : k < (roll3go a b rest).length := by
      rw [roll3go_length]; exact hk
    have hstep : (roll3 (a :: b :: rest)).get ⟨k + 2, h⟩ =
        (roll3go a b rest).get ⟨k, h'⟩ := rfl
    rw [hstep, roll3go_get rest a b k h']
    have hdt : (((a :: b :: rest).take (k + 2 + 1)).drop (k + 2 - 2)) =
        (((a :: b :: rest).drop k).take 3) := by
      rw [show k + 2 - 2 = k from rfl, List.drop_take]
      congr 1
      omega
    rw [hdt]
    have hl3 : (((a :: b :: rest).drop k).take 3).length = 3 := by
      rw [List.length_take, List.length_drop]
      simp only [List.length_cons]
      omega
    rw [hl3]
    norm_num

theorem zip_get_snd {α β : Type} : ∀ (l1 : List α) (l2 : List β) (k : Nat)
    (h : k < (l1.zip l2).length) (h2 : k < l2.length),
    ((l1.zip l2).get ⟨k, h⟩).2 = l2.get ⟨k, h2⟩
  | _ :: _, _ :: _, 0, _, _ => rfl
  | a :: l1, b :: l2, k + 1, h, h2 =>
    zip_get_snd l1 l2 k (by simpa using h) (by simpa using h2)
  | [], _, k, h, _ => absurd h (by simp)
  | _ :: _, [], k, h, _ => absurd h (by simp)

/-! ## C1 -/

/-- C1: for a team whose filter matches a non-empty sequence of N records,
`rolling` returns exactly N rows ordered by period (`game_date`), and the
value at (0-based) row k is the arithmetic mean of the metric values of
rows `max 0 (k-2) … k` — the 3-wide trailing window, averaging over fewer
rows at the start. -/
theorem rolling_returns_trailing_window_means (team : String) (tbl : List Row)
    (_hne : tbl.filter (fun r => r.team_name = team) ≠ []) :
    (rolling team tbl).length = (tbl.filter (fun r => r.team_name = team)).length ∧
    List.Sorted (· ≤ ·) ((rolling team tbl).map Prod.fst) ∧
    ∀ (k : Nat) (hk : k < (rolling team tbl).length),
      ((rolling team tbl).get ⟨k, hk⟩).2 =
        (rollingWindow (rollingVals team tbl) k).sum /
          (rollingWindow (rollingVals team tbl) k).length := by
  refine ⟨?_, ?_, ?_⟩
  · simp [rolling, List.length_zip, roll3_length, rollingBase,
      List.length_insertionSort, rollingVals]
  · have hz : (rolling team tbl).map Prod.fst =
        (rollingBase team tbl).map (fun r => r.game_date) := by
      apply List.map_fst_zip
      simp [roll3_length, rollingVals, rollingBase]
    rw [hz]
    have hs : List.Sorted rowLe (rollingBase team tbl) :=
      List.sorted_insertionSort rowLe _
    exact List.pairwise_map.mpr hs
  · intro k hk
    have hk2 : k < (roll3 (rollingVals team tbl)).length := by
      simp only [roll3_length, rollingVals, List.length_map]
      have h1 := hk
      simp only [rolling, List.length_zip, List.length_map, roll3_length] at h1
      omega
    have hval : ((rolling team tbl).get ⟨k, hk⟩).2 =
        (roll3 (rollingVals team tbl)).get ⟨k, hk2⟩ :=
      zip_get_snd _ _ k hk hk2
    rw [hval, roll3_get (rollingVals team tbl) k hk2]
    rfl

/-- Witness for C1 at a concrete three-row table. -/
theorem rolling_returns_trailing_window_means_witness :
    (wtbl.filter (fun r => r.team_name = "T") ≠ []) ∧
    ((rolling "T" wtbl).length = (wtbl.filter (fun r => r.team_name = "T")).length ∧
     List.Sorted (· ≤ ·) ((rolling "T" wtbl).map Prod.fst) ∧
     ∀ (k : Nat) (hk : k < (rolling "T" wtbl).length),
       ((rolling "T" wtbl).get ⟨k, hk⟩).2 =
         (rollingWindow (rollingVals "T" wtbl) k).sum /
           (rollingWindow (rollingVals "T" wtbl) k).length) :=
  ⟨by decide, rolling_returns_trailing_window_means "T" wtbl (by decide)⟩

/-! ## C2 -/

/-- C2 counterexample: with the CSV present and the store file present
but holding no `attendance` table, the load path does not read the CSV
into the table — `ensure_table`'s `CREATE` runs over the connection
opened with `read_only=True` (build_dashboard.py lines 150-151) and
raises DuckDB's read-only error instead. -/
theorem tableless_store_raises_instead_of_loading :
    ensure_loaded (some wtbl) (some ⟨none⟩) = .error .readOnlyWrite ∧
    ensure_loaded (some wtbl) (some ⟨none⟩) ≠ .ok (⟨some wtbl⟩, true) := by
  refine ⟨rfl, ?_⟩
  intro h
  simp [ensure_loaded, ensure_table] at h

/-- C2 as amended: the load path fails with `DataUnavailable` exactly when
the source CSV is absent.  With the CSV present, a first call with the
backing database file absent reads the CSV into the table (`init_db`, over
a writable connection); a call finding the table present reuses it without
re-reading; a call finding the store file present but the table absent
attempts the load over the read-only connection and fails with the
read-only error instead of reading the CSV; and any call made after a
successful call reuses the table without re-reading. -/
theorem ensure_loaded_contract (c t : List Row) (dbv : DB) :
    ensure_loaded none (some dbv) = .error .dataUnavailable ∧
    ensure_loaded none none = .error .dataUnavailable ∧
    ensure_loaded (some c) none = .ok (⟨some c⟩, true) ∧
    ensure_loaded (some c) (some ⟨none⟩) = .error .readOnlyWrite ∧
    ensure_loaded (some c) (some ⟨some t⟩) = .ok (⟨some t⟩, false) ∧
    ∀ (db0 : Option DB) (db1 : DB) (b : Bool),
      ensure_loaded (some c) db0 = .ok (db1, b) →
        ensure_loaded (some c) (some db1) = .ok (db1, false) := by
  refine ⟨rfl, rfl, rfl, rfl, rfl, ?_⟩
  intro db0 db1 b h
  match db0 with
  | none =>
    have h2 : (Except.ok ((⟨some c⟩ : DB), true) : Except PipeErr (DB × Bool)) =
        .ok (db1, b) := .trans (by rfl) h
    cases Except.ok.inj h2
    rfl
  | some ⟨none⟩ =>
    simp [ensure_loaded, ensure_table] at h
  | some ⟨some t'⟩ =>
    have h2 : (Except.ok ((⟨some t'⟩ : DB), false) : Except PipeErr (DB × Bool)) =
        .ok (db1, b) := .trans (by rfl) h
    cases Except.ok.inj h2
    rfl

/-- Witness for C2: a first call (store file absent) loads the table, the
subsequent call reuses it without reading the CSV. -/
theorem ensure_loaded_contract_witness :
    ensure_loaded (some wtbl) none = .ok (⟨some wtbl⟩, true) ∧
    ensure_loaded (some wtbl) (some ⟨some wtbl⟩) = .ok (⟨some wtbl⟩, false) := by
  have h := ensure_loaded_contract wtbl wtbl ⟨none⟩
  exact ⟨h.2.2.1, h.2.2.2.2.2 none ⟨some wtbl⟩ true h.2.2.1⟩

/-! ## C3 -/

/-- C3: for every input matrix, the heatmap's row axis is forced to
exactly the 7 day-of-week categories in the fixed order Sunday…Saturday,
independently of which categories the data populates. -/
theorem fig1_axis_has_fixed_seven_categories (rows : List (Nat × List ℚ)) :
    (fig1Of rows).ticktext = ["Sun", "Mon", "Tue", "Wed", "Thu", "Fri", "Sat"] ∧
    (fig1Of rows).ticktext.length = 7 ∧
    (fig1Of rows).tickvals = List.range 7 ∧
    (fig1Of rows).tickmode = "array" ∧
    (fig1Of rows).ticktext = (fig1Of []).ticktext :=
  ⟨rfl, rfl, rfl, rfl, rfl⟩

/-! ## C4 -/

/-- C4 counterexample: on a one-row table whose season sum is 2000, the
`annual` query returns the value 2, not the sum 2000 — the query divides
the season sum by 1000 (`SUM(...) / 1000.0`). -/
theorem annual_value_is_not_the_raw_sum :
    annual "T" [c4row] = [(2000, 2)] ∧
    ((([c4row].filter (fun r => r.team_name = "T")).filter
        (fun r => r.year = 2000)).map (fun r => r.weekly_attendance)).sum = 2000 ∧
    ((2 : ℚ) ≠ 2000) := by
  refine ⟨?_, by norm_num [c4row], by norm_num⟩
  norm_num [annual, annualValue, List.insertionSort, List.orderedInsert, c4row]

/-- C4 as amended: `annual` returns one row per populated season, ordered
by season strictly ascending, whose value is the sum of that season's
`weekly_attendance` values divided by 1000 (the total in thousands). -/
theorem annual_sums_each_season_in_thousands (team : String) (tbl : List Row) :
    List.Sorted (· < ·) ((annual team tbl).map Prod.fst) ∧
    ∀ (y : Nat) (v : ℚ), (y, v) ∈ annual team tbl ↔
      (y ∈ (tbl.filter (fun r => r.team_name = team)).map (fun r => r.year) ∧
       v = (((tbl.filter (fun r => r.team_name = team)).filter
              (fun r => r.year = y)).map (fun r => r.weekly_attendance)).sum / 1000) := by
  constructor
  · have hperm : ((((tbl.filter (fun r => r.team_name = team)).map
        (fun r => r.year)).dedup).insertionSort (· ≤ ·)).Perm
        (((tbl.filter (fun r => r.team_name = team)).map (fun r => r.year)).dedup) :=
      List.perm_insertionSort _ _
    have hsorted : List.Sorted (· ≤ ·)
        ((((tbl.filter (fun r => r.team_name = team)).map
          (fun r => r.year)).dedup).insertionSort (· ≤ ·)) :=
      List.sorted_insertionSort _ _
    have hnodup : ((((tbl.filter (fun r => r.team_name = team)).map
        (fun r => r.year)).dedup).insertionSort (· ≤ ·)).Nodup :=
      hperm.nodup_iff.mpr (List.nodup_dedup _)
    have hlt := hsorted.lt_of_le hnodup
    simp only [annual]
    rw [List.map_map]
    have hid : (Prod.fst ∘ fun y : Nat => (y, annualValue team tbl y)) = id := rfl
    rw [hid, List.map_id]
    exact hlt
  · intro y v
    simp only [annual, List.mem_map]
    constructor
    · rintro ⟨a, ha, hav⟩
      obtain ⟨h1, h2⟩ := Prod.mk.injEq .. ▸ hav
      subst h1
      refine ⟨?_, h2.symm⟩
      have := (List.perm_insertionSort (· ≤ ·) _).mem_iff.mp ha
      rw [List.mem_dedup] at this
      simpa [annualValue] using this
    · rintro ⟨hy, hv⟩
      refine ⟨y, ?_, by simp [annualValue, hv]⟩
      rw [(List.perm_insertionSort (· ≤ ·) _).mem_iff, List.mem_dedup]
      simpa using hy

/-- Witness for C4 as amended, at the concrete one-row table. -/
theorem annual_sums_each_season_in_thousands_witness :
    (2000, (2 : ℚ)) ∈ annual "T" [c4row] :=
  ((annual_sums_each_season_in_thousands "T" [c4row]).2 2000 2).mpr
    ⟨by decide, by norm_num [c4row]⟩

/-! ## C5 -/

/-- C5: a team name matching zero rows yields the empty result for all
three queries, and the season line chart built from the empty `annual`
result has no data points. -/
theorem empty_team_filter_empty_results (fmt : Nat → String) (team : String)
    (tbl : List Row) (h : tbl.filter (fun r => r.team_name = team) = []) :
    rolling team tbl = [] ∧ weekday fmt team tbl = [] ∧ annual team tbl = [] ∧
    (fig2Of team tbl).points = [] := by
  have hbase : rollingBase team tbl = [] := by
    simp [rollingBase, h]
  refine ⟨?_, ?_, ?_, ?_⟩
  · simp [rolling, hbase, rollingVals]
  · simp [weekday, h]
  · simp [annual, h]
  · simp [fig2Of, px_line, annual, h]

/-- Witness for C5: the team "B" matches no row of the witness table. -/
theorem empty_team_filter_empty_results_witness :
    (wtbl.filter (fun r => r.team_name = "B") = []) ∧
    (rolling "B" wtbl = [] ∧ weekday (fun _ => "0") "B" wtbl = [] ∧
     annual "B" wtbl = [] ∧ (fig2Of "B" wtbl).points = []) := by
  have h : wtbl.filter (fun r => r.team_name = "B") = [] := by decide
  exact ⟨h, empty_team_filter_empty_results (fun _ => "0") "B" wtbl h⟩

/-! ## String helper lemmas for the renderer -/

theorem str_data_append (s t : String) : (s ++ t).data = s.data ++ t.data := by
  cases s; cases t; rfl

theorem str_append_assoc (a b c : String) : a ++ b ++ c = a ++ (b ++ c) := by
  cases a; cases b; cases c
  exact congrArg String.mk (List.append_assoc ..)

theorem occursIn_head (n s : String) : occursIn n (n ++ s) :=
  ⟨[], s.data, by rw [str_data_append]; rfl⟩

theorem occursIn_cons (t : String) {n s : String} (h : occursIn n s) :
    occursIn n (t ++ s) := by
  obtain ⟨a, b, hab⟩ := h
  exact ⟨t.data ++ a, b, by rw [str_data_append, hab, List.append_assoc]⟩

theorem occursIn_renderPieces_mem (team d1 l1 d2 l2 : String) :
    ∀ (ps : List Piece), ∀ p ∈ ps,
      occursIn (pieceText team d1 l1 d2 l2 p) (renderPieces team d1 l1 d2 l2 ps)
  | p₀ :: ps, p, hp => by
    rcases List.mem_cons.mp hp with rfl | hp'
    · exact occursIn_head _ _
    · exact occursIn_cons _ (occursIn_renderPieces_mem team d1 l1 d2 l2 ps p hp')
  | [], p, hp => absurd hp (by simp)

theorem occursIn_renderPieces_pair (team d1 l1 d2 l2 : String) :
    ∀ (xs : List Piece) (p q : Piece) (ys : List Piece),
      occursIn (pieceText team d1 l1 d2 l2 p ++ pieceText team d1 l1 d2 l2 q)
        (renderPieces team d1 l1 d2 l2 (xs ++ p :: q :: ys))
  | [], p, q, ys => by
    show occursIn _ (pieceText team d1 l1 d2 l2 p ++
      (pieceText team d1 l1 d2 l2 q ++ renderPieces team d1 l1 d2 l2 ys))
    rw [← str_append_assoc]
    exact occursIn_head _ _
  | x :: xs, p, q, ys => by
    show occursIn _ (pieceText team d1 l1 d2 l2 x ++
      renderPieces team d1 l1 d2 l2 (xs ++ p :: q :: ys))
    exact occursIn_cons _ (occursIn_renderPieces_pair team d1 l1 d2 l2 xs p q ys)

/-! ## C7 -/

/-- C7 counterexample: the HTML template embeds the specifications of
exactly two distinct charts (`fig1` and `fig2`), not three. -/
theorem template_embeds_two_charts_not_three :
    htmlChartFigs.dedup.length = 2 ∧ htmlChartFigs.dedup.length ≠ 3 := by
  decide

/-- C7 as amended: the renderer produces one HTML document for the fixed
output path `html/dashboard.html`, embedding the two chart specifications
(each chart's data and layout) and the team label immediately after the
page's `<h1>` heading tag; the `<title>` element is the fixed text
`NFL Attendance Dashboard`. -/
theorem render_embeds_two_charts_and_team_heading (team d1 l1 d2 l2 : String) :
    HTML_OUT = "html/dashboard.html" ∧
    htmlChartFigs = [1, 2] ∧
    occursIn (tplH1 ++ team) (renderTemplate team d1 l1 d2 l2) ∧
    occursIn tplTitle (renderTemplate team d1 l1 d2 l2) ∧
    occursIn d1 (renderTemplate team d1 l1 d2 l2) ∧
    occursIn l1 (renderTemplate team d1 l1 d2 l2) ∧
    occursIn d2 (renderTemplate team d1 l1 d2 l2) ∧
    occursIn l2 (renderTemplate team d1 l1 d2 l2) := by
  refine ⟨rfl, rfl, ?_, ?_, ?_, ?_, ?_, ?_⟩
  · exact occursIn_renderPieces_pair team d1 l1 d2 l2
      [.lit tplHead, .lit tplTitle, .lit tplStyle] (.lit tplH1) .teamVar
      [.lit tplMid1, .figData 1, .lit tplComma1, .figLayout 1,
       .lit tplMid2, .figData 2, .lit tplComma2, .figLayout 2, .lit tplEnd]
  · exact occursIn_renderPieces_mem team d1 l1 d2 l2 HTML_TEMPLATE
      (.lit tplTitle) (by decide)
  · exact occursIn_renderPieces_mem team d1 l1 d2 l2 HTML_TEMPLATE
      (.figData 1) (by decide)
  · exact occursIn_renderPieces_mem team d1 l1 d2 l2 HTML_TEMPLATE
      (.figLayout 1) (by decide)
  · exact occursIn_renderPieces_mem team d1 l1 d2 l2 HTML_TEMPLATE
      (.figData 2) (by decide)
  · exact occursIn_renderPieces_mem team d1 l1 d2 l2 HTML_TEMPLATE
      (.figLayout 2) (by decide)

/-! ## C8 -/

/-- C8: with the CSV unchanged and the persistent store file present in
its Loaded state — it holds the `attendance` table, the only state the
spec's store machine reaches (Absent → Loaded) and the state every
successful run leaves behind — the load is skipped and a second pipeline
run returns exactly the same store state and byte-for-byte the same
aggregation results as the first (the three queries are pure functions of
the unchanged table).  A store file lacking the table never reaches the
queries: every run over it fails identically with the read-only error
(the C2 correction). -/
theorem pipeline_rerun_identical_with_store_present (fmt : Nat → String)
    (team : String) (c t : List Row) :
    (∃ (db1 : DB) (r : List (Nat × ℚ) × List (String × Nat × ℚ) × List (Nat × ℚ)),
      runPipeline fmt team (some c) (some ⟨some t⟩) = .ok (db1, r) ∧
      runPipeline fmt team (some c) (some db1) = .ok (db1, r)) ∧
    runPipeline fmt team (some c) (some ⟨none⟩) = .error .readOnlyWrite :=
  ⟨⟨⟨some t⟩, runAggregates fmt team t, rfl, rfl⟩, rfl⟩

/-! ## C9 -/

theorem find?_first_in_pairwise {α : Type} {R : α → α → Prop} (p : α → Bool) :
    ∀ (l : List α), l.Pairwise R → ∀ d, l.find? p = some d →
      p d = true ∧ d ∈ l ∧ ∀ d' ∈ l, p d' = true → d' = d ∨ R d d'
  | x :: xs, hpw, d, hf => by
    rcases List.pairwise_cons.mp hpw with ⟨hx, hxs⟩
    by_cases hpx : p x = true
    · rw [List.find?_cons_of_pos _ hpx] at hf
      cases Option.some.inj hf
      refine ⟨hpx, List.mem_cons_self .., ?_⟩
      intro d' hd' _
      rcases List.mem_cons.mp hd' with rfl | hd'
      · exact Or.inl rfl
      · exact Or.inr (hx d' hd')
    · have hpx' : p x = false := by simpa using hpx
      rw [List.find?_cons_of_neg _ (by simp [hpx'])] at hf
      obtain ⟨h1, h2, h3⟩ := find?_first_in_pairwise p xs hxs d hf
      refine ⟨h1, List.mem_cons_of_mem _ h2, ?_⟩
      intro d' hd' hp'
      rcases List.mem_cons.mp hd' with rfl | hd'
      · rw [hp'] at hpx'; cases hpx'
      · exact h3 d' hd' hp'
  | [], _, d, hf => by simp at hf

/-- C9: `tuesdays_2023` is exactly the list of all Tuesdays of 2023 as
`YYYY-MM-DD` strings, newest first and strictly descending; consequently
the dataset folder `main` picks (no override set) is the chronologically
latest 2023 Tuesday whose `attendance.csv` answers the `HEAD` probe with
status 200. -/
theorem tuesdays_2023_all_tuesdays_newest_first :
    tuesdays_2023 = tuesdays2023Desc ∧
    List.Pairwise (fun a b : String => dateLt b a) tuesdays_2023 ∧
    ∀ (env : HttpEnv) (d : String),
      chooseDate env tuesdays_2023 = some d →
        d ∈ tuesdays2023Desc ∧
        env.headStatus (urlFor d MANDATORY) = 200 ∧
        ∀ d' ∈ tuesdays2023Desc, env.headStatus (urlFor d' MANDATORY) = 200 →
          d' = d ∨ dateLt d' d := by
  have heq : tuesdays_2023 = tuesdays2023Desc := by decide
  have hpw : List.Pairwise (fun a b : String => dateLt b a) tuesdays_2023 := by
    decide
  refine ⟨heq, hpw, ?_⟩
  intro env d hc
  obtain ⟨h1, h2, h3⟩ := find?_first_in_pairwise
    (fun x => env.headStatus (urlFor x MANDATORY) == 200) tuesdays_2023 hpw d hc
  refine ⟨?_, by simpa using h1, ?_⟩
  · rw [← heq]; exact h2
  · intro d' hd' hs
    have hd'' : d' ∈ tuesdays_2023 := by rw [heq]; exact hd'
    exact h3 d' hd'' (by simpa using hs)

/-- Witness for C9: with every probe answering 200, the chosen folder is
2023-12-26, the chronologically last Tuesday of 2023. -/
theorem tuesdays_2023_all_tuesdays_newest_first_witness :
    "2023-12-26" ∈ tuesdays2023Desc ∧
    envAll200.headStatus (urlFor "2023-12-26" MANDATORY) = 200 ∧
    ∀ d' ∈ tuesdays2023Desc, envAll200.headStatus (urlFor d' MANDATORY) = 200 →
      d' = "2023-12-26" ∨ dateLt d' "2023-12-26" :=
  tuesdays_2023_all_tuesdays_newest_first.2.2 envAll200 "2023-12-26" (by decide)

/-! ## C6 -/

/-- C6 counterexample: a non-404 error status (500) on the optional
schedule file makes the run exit with code 1 — it is not
logged-and-continued. -/
theorem optional_fetch_error_aborts_run :
    env0.getStatus (urlFor "2023-12-26" MANDATORY) = 200 ∧
    is_error_status (env0.getStatus (urlFor "2023-12-26" OPTIONAL)) = true ∧
    env0.getStatus (urlFor "2023-12-26" OPTIONAL) ≠ 404 ∧
    (mainFetch env0 none).1 = 1 ∧ (1 : Nat) ≠ 0 := by
  exact ⟨by decide, by decide, by decide, by decide, by decide⟩

/-- C6 as amended: a remote fetch answering an error status other than 404
is fatal (exit code 1) for the mandatory `attendance.csv` — and it is
equally fatal for the optional schedule file; only a 404 on the optional
file is tolerated, in which case the run finishes with exit code 0 having
written just the mandatory file. -/
theorem fetch_error_status_fatal_for_both_files (env : HttpEnv) (d : String)
    (hd : chooseDate env tuesdays_2023 = some d) :
    (is_error_status (env.getStatus (urlFor d MANDATORY)) = true →
       env.getStatus (urlFor d MANDATORY) ≠ 404 →
       (mainFetch env none).1 = 1) ∧
    (env.getStatus (urlFor d MANDATORY) = 200 →
       env.getStatus (urlFor d OPTIONAL) = 404 →
       mainFetch env none =
         (0, [(RAW_DIR ++ MANDATORY, env.getBody (urlFor d MANDATORY))])) ∧
    (env.getStatus (urlFor d MANDATORY) = 200 →
       is_error_status (env.getStatus (urlFor d OPTIONAL)) = true →
       env.getStatus (urlFor d OPTIONAL) ≠ 404 →
       (mainFetch env none).1 = 1) := by
  have key : mainFetch env none =
      match download env (urlFor d MANDATORY) [] (RAW_DIR ++ MANDATORY) with
      | (.raised, files) => (1, files)
      | (.notFound, files) => (1, files)
      | (.success, files) =>
        match download env (urlFor d OPTIONAL) files (RAW_DIR ++ OPTIONAL) with
        | (.raised, files2) => (1, files2)
        | (_, files2) => (0, files2) := by
    simp only [mainFetch]
    rw [hd]
  refine ⟨?_, ?_, ?_⟩
  · intro h1 h2
    have hb : (env.getStatus (urlFor d MANDATORY) == 404) = false := by
      simpa using h2
    rw [key]
    simp [download, hb, h1]
  · intro h1 h2
    rw [key]
    simp [download, h1, h2, is_error_status]
  · intro h1 h2 h3
    have hb : (env.getStatus (urlFor d OPTIONAL) == 404) = false := by
      simpa using h3
    rw [key]
    simp [download, h1, h2, hb, show is_error_status 200 = false from rfl]

/-- Witness for C6 as amended: with the optional file missing (404), the
run exits 0 and writes only the mandatory file. -/
theorem fetch_error_status_fatal_for_both_files_witness :
    mainFetch env1 none =
      (0, [(RAW_DIR ++ MANDATORY, env1.getBody (urlFor "2023-12-26" MANDATORY))]) :=
  (fetch_error_status_fatal_for_both_files env1 "2023-12-26" (by decide)).2.1
    (by decide) (by decide)

/-! ## C10 -/

/-- C10: `download` writes the destination only on a non-error status; on
404 it returns `False` leaving the file state unchanged, and on any other
error status it raises before the write, also leaving the file state
unchanged. -/
theorem download_writes_only_on_success (env : HttpEnv) (url dest : String)
    (files : List (String × String)) :
    (env.getStatus url = 404 →
       download env url files dest = (.notFound, files)) ∧
    (env.getStatus url ≠ 404 → is_error_status (env.getStatus url) = true →
       download env url files dest = (.raised, files)) ∧
    (is_error_status (env.getStatus url) = false →
       download env url files dest = (.success, (dest, env.getBody url) :: files)) := by
  refine ⟨?_, ?_, ?_⟩
  · intro h
    simp [download, h]
  · intro h1 h2
    have hb : (env.getStatus url == 404) = false := by simpa using h1
    simp [download, hb, h2]
  · intro h1
    have h404 : env.getStatus url ≠ 404 := by
      intro heq
      rw [heq] at h1
      simp [is_error_status] at h1
    have hb : (env.getStatus url == 404) = false := by simpa using h404
    simp [download, hb, h1]

/-- Witness for C10: a 404 returns `False` and writes nothing. -/
theorem download_writes_only_on_success_witness :
    download env404 "u" [] "d" = (.notFound, []) :=
  (download_writes_only_on_success env404 "u" "d" []).1 (by decide)
